import Mathlib

/-!
Shallow embedding of `netatmo-trmnl.py`, a single-file integration script that
obtains an OAuth token for the Netatmo API (refresh grant with password-grant
fallback), reads station and forecast data, and pushes a formatted payload to
a display webhook.

Modelling conventions:
* Python numbers are modelled by `PyNum` (`int` over `ℤ`, `float` over `ℚ`);
  `round(x, d)` is Python's banker's rounding, modelled exactly on `ℚ` by
  `roundTo` / `roundHalfEven`.
* Python `None` is `Option.none`; values that may be `None` are `Option _`.
* Python exceptions are modelled by `Except PyErr _`; `requests` raises
  `HTTPError` from `raise_for_status` exactly when the status code is in
  `[400, 600)`.
* The token file, the two auth-endpoint responses and the success of the
  file write are an explicit environment `AuthEnv`; side effects of
  `get_access_token` (HTTP posts, prints, file writes) are recorded in an
  event trace.
* JSON objects are association lists `List (String × PyVal)`; `d.get(k)` is
  `List.lookup` returning `Option`, `d[k]` raises `KeyError` when absent.
-/

namespace NetatmoTrmnl

/-- Round-half-to-even of a rational to an integer, exactly as Python's
built-in `round(x)` behaves on an exactly-representable value. Computed from
the reduced numerator and denominator so that it evaluates by `decide`. -/
def roundHalfEven (x : ℚ) : ℤ :=
  let f : ℤ := Int.fdiv x.num x.den
  let rnum : ℤ := x.num - f * x.den
  if 2 * rnum < (x.den : ℤ) then f
  else if (x.den : ℤ) < 2 * rnum then f + 1
  else if f % 2 = 0 then f else f + 1

/-- Python's `round(x, d)` for `d ≥ 1` decimal digits (banker's rounding),
on exact rationals. -/
def roundTo (d : ℕ) (x : ℚ) : ℚ :=
  (roundHalfEven (x * 10 ^ d) : ℚ) / 10 ^ d

/-- Decimal digits of a fraction `num / den ∈ (0, 1)`, stopping when the
remainder is zero; `fuel` bounds the number of digits. -/
def fracDigits : ℕ → ℕ → ℕ → String
  | 0, _, _ => ""
  | fuel + 1, num, den =>
    let n10 := num * 10
    toString (n10 / den) ++
      (if n10 % den = 0 then "" else fracDigits fuel (n10 % den) den)

/-- Rendering of a Python float holding an exact decimal value, as `str` /
f-string interpolation shows it: minimal decimal digits but at least one
(`32.0`, `71.6`, `3.94`). -/
def floatRepr (q : ℚ) : String :=
  let n := q.num.natAbs
  let d := q.den
  (if q.num < 0 then "-" else "") ++ toString (n / d) ++ "." ++
    (if n % d = 0 then "0" else fracDigits 30 (n % d) d)

/-- A Python number as found in parsed JSON: `int` or `float`. -/
inductive PyNum where
  | int (n : ℤ)
  | float (q : ℚ)
  deriving DecidableEq, Repr

/-- The numeric value of a `PyNum`. -/
def PyNum.toQ : PyNum → ℚ
  | .int n => (n : ℚ)
  | .float q => q

/-- How f-string interpolation renders a `PyNum`: ints without a decimal
point, floats with one. -/
def PyNum.pyRepr : PyNum → String
  | .int n => toString n
  | .float q => floatRepr q

/-- A Python value as found in parsed JSON / dicts in this script:
a string, a number, or `None`. -/
inductive PyVal where
  | str (s : String)
  | num (v : PyNum)
  | pynone
  deriving DecidableEq, Repr

/-- The Python exceptions this script can raise. -/
inductive PyErr where
  | httpError
  | keyError
  | valueError
  | typeError
  | ioError
  | indexError
  deriving DecidableEq, Repr

/-- `c_to_f` (line 12): `round((c * 9/5) + 32, 1) if c is not None else None`. -/
def c_to_f (c : Option PyNum) : Option ℚ :=
  match c with
  | some v => some (roundTo 1 (v.toQ * 9 / 5 + 32))
  | none => none

/-- `mm_to_in` (line 15): `round(mm * 0.0393701, 2) if mm is not None else None`. -/
def mm_to_in (mm : Option PyNum) : Option ℚ :=
  match mm with
  | some v => some (roundTo 2 (v.toQ * (393701 / 10000000)))
  | none => none

/-- `kmh_to_mph` (line 18): `round(kmh * 0.621371, 1) if kmh is not None else None`. -/
def kmh_to_mph (kmh : Option PyNum) : Option ℚ :=
  match kmh with
  | some v => some (roundTo 1 (v.toQ * (621371 / 1000000)))
  | none => none

/-- Zero-pad a natural number to two digits (for minutes). -/
def pad2 (n : ℕ) : String :=
  if n < 10 then "0" ++ toString n else toString n

/-- `strftime("%-I:%M %p")` on a local-time clock given as seconds into the
day: 12-hour hour without zero padding, zero-padded minutes, AM/PM. -/
def clockString (secondsOfDay : ℕ) : String :=
  let h24 := secondsOfDay / 3600
  let m := secondsOfDay % 3600 / 60
  let h12 := if h24 % 12 = 0 then 12 else h24 % 12
  let ampm := if h24 < 12 then "AM" else "PM"
  toString h12 ++ ":" ++ pad2 m ++ " " ++ ampm

/-- `format_unix_time` (line 21): `datetime.fromtimestamp(unix_ts)` followed by
`strftime("%-I:%M %p")`. `fromtimestamp` converts to the host's local zone,
modelled by the explicit offset `tzOffset` (in seconds east of UTC). The
function has no `None` guard: `datetime.fromtimestamp(None)` raises
`TypeError`, so the absence value is NOT propagated but raises. -/
def format_unix_time (tzOffset : ℤ) (unix_ts : Option ℤ) : Except PyErr String :=
  match unix_ts with
  | none => .error .typeError
  | some ts => .ok (clockString (((ts + tzOffset) % 86400).toNat))

/-- `get_air_quality_status` (line 71): CO2 thresholds; `None` means unknown. -/
def get_air_quality_status (co2 : Option PyNum) : String :=
  match co2 with
  | none => "Unknown"
  | some v =>
    if v.toQ < 800 then "Good"
    else if v.toQ < 1200 then "Moderate"
    else "Poor"

/-- A parsed JSON object (such as the token record) as an association list. -/
abbrev JObj : Type := List (String × PyVal)

/-- An HTTP response: status code, and the parsed JSON body (`none` means the
body is not valid JSON, so `response.json()` raises `ValueError`). -/
structure HttpResp where
  status : ℕ
  body : Option JObj
  deriving DecidableEq

/-- The environment `get_access_token` runs in: the content of the token
file (`none` when the file is absent), the responses the auth endpoint gives
to the refresh-grant and password-grant posts, and whether writing the token
file succeeds. -/
structure AuthEnv where
  stored : Option JObj
  refreshResp : HttpResp
  passwordResp : HttpResp
  saveOk : Bool
  deriving DecidableEq

/-- Observable side effects of `get_access_token`, in order. -/
inductive Event where
  | printedRefresh
  | refreshPost
  | printedFallback
  | printedPassword
  | passwordPost
  | saved (t : JObj)
  deriving DecidableEq, Repr

deriving instance DecidableEq for Except

/-- The outcome of a run of `get_access_token`: the returned value or the
uncaught exception, the final token-file content, and the event trace. -/
structure TokenRun where
  result : Except PyErr PyVal
  file : Option JObj
  trace : List Event
  deriving DecidableEq

/-- `load_tokens` (line 25): returns the parsed file content when the file
exists, `{}` otherwise. Never raises when the file is absent. -/
def load_tokens (stored : Option JObj) : JObj :=
  match stored with
  | some t => t
  | none => ([] : JObj)

/-- `save_tokens` (line 31): writes the record to the token file; an OS-level
write failure raises. Returns the new file content. -/
def save_tokens (saveOk : Bool) (t : JObj) : Except PyErr (Option JObj) :=
  if saveOk then .ok (some t) else .error .ioError

/-- `response.raise_for_status()` from `requests`: raises `HTTPError` exactly
for status codes in `[400, 600)`. -/
def raise_for_status (r : HttpResp) : Except PyErr Unit :=
  if 400 ≤ r.status ∧ r.status < 600 then .error .httpError else .ok ()

/-- `response.json()`: the parsed body, or `ValueError` when unparsable. -/
def respJson (r : HttpResp) : Except PyErr JObj :=
  match r.body with
  | some j => .ok j
  | none => .error .valueError

/-- The password-grant half of `get_access_token` (lines 57-69): post the
password grant, `raise_for_status`, parse, `save_tokens`, then return
`new_tokens["access_token"]` (a `KeyError` when the field is missing).
`file` is the token-file content on entry, `ev` the trace so far. -/
def password_grant (env : AuthEnv) (file : Option JObj) (ev : List Event) : TokenRun :=
  let ev := ev ++ [.printedPassword, .passwordPost]
  match raise_for_status env.passwordResp with
  | .error e => ⟨.error e, file, ev⟩
  | .ok _ =>
    match respJson env.passwordResp with
    | .error e => ⟨.error e, file, ev⟩
    | .ok nt =>
      match save_tokens env.saveOk nt with
      | .error e => ⟨.error e, file, ev⟩
      | .ok newFile =>
        match nt.lookup "access_token" with
        | some v => ⟨.ok v, newFile, ev ++ [.saved nt]⟩
        | none => ⟨.error .keyError, newFile, ev ++ [.saved nt]⟩

/-- `get_access_token` (lines 36-69). When the loaded record has a
`refresh_token` key, the refresh grant is attempted inside `try`; its
`except requests.HTTPError` clause catches ONLY `HTTPError` and falls through
to the password grant. Any other exception in the `try` body (`ValueError`
from `response.json()`, `OSError` from `save_tokens`, `KeyError` from the
`access_token` lookup) propagates uncaught. Without a `refresh_token` key the
password grant runs directly. -/
def get_access_token (env : AuthEnv) : TokenRun :=
  let tokens := load_tokens env.stored
  match tokens.lookup "refresh_token" with
  | some _ =>
    let ev : List Event := [.printedRefresh, .refreshPost]
    match raise_for_status env.refreshResp with
    | .error .httpError => password_grant env env.stored (ev ++ [.printedFallback])
    | .error e => ⟨.error e, env.stored, ev⟩
    | .ok _ =>
      match respJson env.refreshResp with
      | .error e => ⟨.error e, env.stored, ev⟩
      | .ok nt =>
        match save_tokens env.saveOk nt with
        | .error e => ⟨.error e, env.stored, ev⟩
        | .ok newFile =>
          match nt.lookup "access_token" with
          | some v => ⟨.ok v, newFile, ev ++ [.saved nt]⟩
          | none => ⟨.error .keyError, newFile, ev ++ [.saved nt]⟩
  | none => password_grant env env.stored []

/-- A station sub-module from the `getstationsdata` response: its `type` tag
and its `dashboard_data` object of numeric sensor fields. -/
structure Module where
  type : String
  dashboard_data : List (String × PyNum)
  deriving DecidableEq, Repr

/-- A device record from the `getstationsdata` response: the base (indoor)
unit's `dashboard_data` and its list of sub-modules. -/
structure Device where
  dashboard_data : List (String × PyNum)
  modules : List Module
  deriving DecidableEq, Repr

/-- The dict returned by `get_weather_data` (lines 97-118): thirteen
numeric-or-absent fields. -/
structure StationReading where
  indoor_temp_c : Option PyNum
  indoor_humidity : Option PyNum
  co2 : Option PyNum
  pressure : Option PyNum
  noise : Option PyNum
  outdoor_temp_c : Option PyNum
  outdoor_humidity : Option PyNum
  rain_1h : Option PyNum
  rain_24h : Option PyNum
  wind_strength : Option PyNum
  gust_strength : Option PyNum
  wind_angle : Option PyNum
  gust_angle : Option PyNum
  deriving DecidableEq, Repr

/-- The `StationReading` dict as a key-value list, in the source's literal
order, with absent values as Python `None`. -/
def StationReading.toDict (r : StationReading) : List (String × PyVal) :=
  let v : Option PyNum → PyVal := fun o =>
    match o with
    | some n => .num n
    | none => .pynone
  [("indoor_temp_c", v r.indoor_temp_c),
   ("indoor_humidity", v r.indoor_humidity),
   ("co2", v r.co2),
   ("pressure", v r.pressure),
   ("noise", v r.noise),
   ("outdoor_temp_c", v r.outdoor_temp_c),
   ("outdoor_humidity", v r.outdoor_humidity),
   ("rain_1h", v r.rain_1h),
   ("rain_24h", v r.rain_24h),
   ("wind_strength", v r.wind_strength),
   ("gust_strength", v r.gust_strength),
   ("wind_angle", v r.wind_angle),
   ("gust_angle", v r.gust_angle)]

/-- `get_weather_data` (lines 82-118), from the parsed `devices` list of the
station response (the HTTP fetch and `raise_for_status` are outside this
pure extraction). `devices[0]` raises `IndexError` on an empty list;
`next((m for m in modules if m["type"] == tag), None)` is `List.find?`;
`dashboard_data.get(key)` is `List.lookup`. -/
def get_weather_data (devices : List Device) : Except PyErr StationReading :=
  match devices with
  | [] => .error .indexError
  | base :: _ =>
    let modules := base.modules
    let outdoor := modules.find? (fun m => m.type == "NAModule1")
    let wind := modules.find? (fun m => m.type == "NAModule2")
    let rain := modules.find? (fun m => m.type == "NAModule3")
    .ok
      { indoor_temp_c := base.dashboard_data.lookup "Temperature"
        indoor_humidity := base.dashboard_data.lookup "Humidity"
        co2 := base.dashboard_data.lookup "CO2"
        pressure := base.dashboard_data.lookup "Pressure"
        noise := base.dashboard_data.lookup "Noise"
        outdoor_temp_c := outdoor.bind (fun m => m.dashboard_data.lookup "Temperature")
        outdoor_humidity := outdoor.bind (fun m => m.dashboard_data.lookup "Humidity")
        rain_1h := rain.bind (fun m => m.dashboard_data.lookup "sum_rain_1")
        rain_24h := rain.bind (fun m => m.dashboard_data.lookup "sum_rain_24")
        wind_strength := wind.bind (fun m => m.dashboard_data.lookup "WindStrength")
        gust_strength := wind.bind (fun m => m.dashboard_data.lookup "GustStrength")
        wind_angle := wind.bind (fun m => m.dashboard_data.lookup "WindAngle")
        gust_angle := wind.bind (fun m => m.dashboard_data.lookup "GustAngle") }

/-- The first element of the forecast response's `daily` array, with the
fields `get_forecast3` reads. `rain` and `pop` may be absent (`dict.get`
with default); the other fields are indexed directly, so absence would be a
`KeyError` — they are modelled as present, which is the shape the code
assumes. -/
structure DailyForecast where
  temp_max : ℚ
  temp_min : ℚ
  humidity : PyNum
  rain : Option PyNum
  pop : Option PyNum
  sunrise : ℤ
  sunset : ℤ
  deriving DecidableEq, Repr

/-- The dict returned by `get_forecast3` (lines 141-149). -/
structure ForecastReading where
  forecast_high : ℤ
  forecast_low : ℤ
  forecast_humidity : PyNum
  forecast_rain_in : Option ℚ
  forecast_rain_chance : ℤ
  sunrise : String
  sunset : String
  deriving DecidableEq, Repr

/-- The `ForecastReading` dict as a key-value list, in the source's literal
order. -/
def ForecastReading.toDict (f : ForecastReading) : List (String × PyVal) :=
  [("forecast_high", .num (.int f.forecast_high)),
   ("forecast_low", .num (.int f.forecast_low)),
   ("forecast_humidity", .num f.forecast_humidity),
   ("forecast_rain_in",
     match f.forecast_rain_in with
     | some q => .num (.float q)
     | none => .pynone),
   ("forecast_rain_chance", .num (.int f.forecast_rain_chance)),
   ("sunrise", .str f.sunrise),
   ("sunset", .str f.sunset)]

/-- `get_forecast3` (lines 122-149), from today's parsed daily record (the
HTTP fetch is outside this pure extraction; `tzOffset` is the host timezone
passed through to `format_unix_time`). `round(x)` with no digit count is
banker's rounding to an int; `today.get("rain", 0)` defaults to the int `0`;
`sunrise`/`sunset` are always present ints, so `format_unix_time` never sees
`None` here and the `Except` is resolved to its `.ok` value. -/
def get_forecast3 (tzOffset : ℤ) (today : DailyForecast) : ForecastReading :=
  { forecast_high := roundHalfEven today.temp_max
    forecast_low := roundHalfEven today.temp_min
    forecast_humidity := today.humidity
    forecast_rain_in := mm_to_in (some (today.rain.getD (.int 0)))
    forecast_rain_chance := roundHalfEven ((today.pop.getD (.int 0)).toQ * 100)
    sunrise := clockString (((today.sunrise + tzOffset) % 86400).toNat)
    sunset := clockString (((today.sunset + tzOffset) % 86400).toNat) }

/-- The keys of a Python dict modelled as a key-value list. -/
def dictKeys (d : List (String × PyVal)) : List String :=
  d.map Prod.fst

/-- Python's `{**a, **b}`: the keys of `a` in order, each with `b`'s value
when `b` also has the key, followed by the keys of `b` not in `a`, in
`b`'s order. -/
def dictMerge (a b : List (String × PyVal)) : List (String × PyVal) :=
  a.map (fun p => (p.1, (b.lookup p.1).getD p.2)) ++
    b.filter (fun p => ¬ (dictKeys a).contains p.1)

/-- The merged dict `{**netatmo, **forecast}` built in `__main__` (line 201),
as the typed record `push_to_terminal` reads its fixed keys from. -/
structure CombinedData where
  indoor_temp_c : Option PyNum
  indoor_humidity : Option PyNum
  co2 : Option PyNum
  pressure : Option PyNum
  noise : Option PyNum
  outdoor_temp_c : Option PyNum
  outdoor_humidity : Option PyNum
  rain_1h : Option PyNum
  rain_24h : Option PyNum
  wind_strength : Option PyNum
  gust_strength : Option PyNum
  wind_angle : Option PyNum
  gust_angle : Option PyNum
  forecast_high : ℤ
  forecast_low : ℤ
  forecast_humidity : PyNum
  forecast_rain_in : Option ℚ
  forecast_rain_chance : ℤ
  sunrise : String
  sunset : String
  deriving DecidableEq, Repr

/-- `combined = { **netatmo, **forecast }` (line 201) as a typed record: the
two key sets are disjoint, so every field is taken unchanged from its side. -/
def combineReadings (s : StationReading) (f : ForecastReading) : CombinedData :=
  { indoor_temp_c := s.indoor_temp_c
    indoor_humidity := s.indoor_humidity
    co2 := s.co2
    pressure := s.pressure
    noise := s.noise
    outdoor_temp_c := s.outdoor_temp_c
    outdoor_humidity := s.outdoor_humidity
    rain_1h := s.rain_1h
    rain_24h := s.rain_24h
    wind_strength := s.wind_strength
    gust_strength := s.gust_strength
    wind_angle := s.wind_angle
    gust_angle := s.gust_angle
    forecast_high := f.forecast_high
    forecast_low := f.forecast_low
    forecast_humidity := f.forecast_humidity
    forecast_rain_in := f.forecast_rain_in
    forecast_rain_chance := f.forecast_rain_chance
    sunrise := f.sunrise
    sunset := f.sunset }

/-- The `CombinedData` record as the key-value dict it stands for. -/
def CombinedData.toDict (d : CombinedData) : List (String × PyVal) :=
  let v : Option PyNum → PyVal := fun o =>
    match o with
    | some n => .num n
    | none => .pynone
  [("indoor_temp_c", v d.indoor_temp_c),
   ("indoor_humidity", v d.indoor_humidity),
   ("co2", v d.co2),
   ("pressure", v d.pressure),
   ("noise", v d.noise),
   ("outdoor_temp_c", v d.outdoor_temp_c),
   ("outdoor_humidity", v d.outdoor_humidity),
   ("rain_1h", v d.rain_1h),
   ("rain_24h", v d.rain_24h),
   ("wind_strength", v d.wind_strength),
   ("gust_strength", v d.gust_strength),
   ("wind_angle", v d.wind_angle),
   ("gust_angle", v d.gust_angle),
   ("forecast_high", .num (.int d.forecast_high)),
   ("forecast_low", .num (.int d.forecast_low)),
   ("forecast_humidity", .num d.forecast_humidity),
   ("forecast_rain_in",
     match d.forecast_rain_in with
     | some q => .num (.float q)
     | none => .pynone),
   ("forecast_rain_chance", .num (.int d.forecast_rain_chance)),
   ("sunrise", .str d.sunrise),
   ("sunset", .str d.sunset)]

/-- The `safe` lambda of `push_to_terminal` (line 154) applied to a
float-or-`None` value (the result of a unit conversion):
`f"{val}{suffix}"` when present, the sentinel dash when `None`. -/
def safeF (val : Option ℚ) (suffix : String) : String :=
  match val with
  | some q => floatRepr q ++ suffix
  | none => "—"

/-- The `safe` lambda applied to a raw numeric-or-`None` field. -/
def safeN (val : Option PyNum) (suffix : String) : String :=
  match val with
  | some v => v.pyRepr ++ suffix
  | none => "—"

/-- The `safe` lambda applied to an int field that is never `None`
(the forecast ints produced by `round`). -/
def safeI (val : ℤ) (suffix : String) : String :=
  toString val ++ suffix

/-- The `safe` lambda applied to a plain number that is never `None`
(`forecast_humidity`). -/
def safeNum (val : PyNum) (suffix : String) : String :=
  val.pyRepr ++ suffix

/-- The `merge_variables` dict of `push_to_terminal` (lines 157-189):
twenty-two display fields, every value a string. -/
structure MergeVars where
  indoor_temp : String
  outdoor_temp : String
  indoor_humidity : String
  outdoor_humidity : String
  co2 : String
  air_quality : String
  pressure : String
  noise : String
  rain_1h : String
  rain_24h : String
  wind_speed : String
  gust_speed : String
  wind_angle : String
  gust_angle : String
  forecast_high : String
  forecast_low : String
  forecast_humidity : String
  forecast_rain_in : String
  forecast_rain_chance : String
  sunrise : String
  sunset : String
  message : String
  deriving DecidableEq, Repr

/-- `push_to_terminal` (lines 153-189) up to the webhook post: build the
`merge_variables` dict from the combined data. -/
def push_merge_variables (data : CombinedData) : MergeVars :=
  { indoor_temp := safeF (c_to_f data.indoor_temp_c) "°F"
    outdoor_temp := safeF (c_to_f data.outdoor_temp_c) "°F"
    indoor_humidity := safeN data.indoor_humidity "%"
    outdoor_humidity := safeN data.outdoor_humidity "%"
    co2 := safeN data.co2 " ppm"
    air_quality := get_air_quality_status data.co2
    pressure := safeN data.pressure " mbar"
    noise := safeN data.noise " dB"
    rain_1h := safeF (mm_to_in data.rain_1h) " in"
    rain_24h := safeF (mm_to_in data.rain_24h) " in"
    wind_speed := safeF (kmh_to_mph data.wind_strength) " mph"
    gust_speed := safeF (kmh_to_mph data.gust_strength) " mph"
    wind_angle := safeN data.wind_angle "°"
    gust_angle := safeN data.gust_angle "°"
    forecast_high := safeI data.forecast_high "°F"
    forecast_low := safeI data.forecast_low "°F"
    forecast_humidity := safeNum data.forecast_humidity "%"
    forecast_rain_in := safeF data.forecast_rain_in " in"
    forecast_rain_chance := safeI data.forecast_rain_chance "%"
    sunrise := data.sunrise
    sunset := data.sunset
    message :=
      "🌡️ " ++ safeF (c_to_f data.outdoor_temp_c) "°F" ++ " out / " ++
        safeF (c_to_f data.indoor_temp_c) "°F" ++ " in\n" ++
      "💧 " ++ safeN data.outdoor_humidity "%" ++ " out / " ++
        safeN data.indoor_humidity "%" ++ " in\n" ++
      "🌬️ " ++ safeF (kmh_to_mph data.wind_strength) " mph" ++ " wind, Gusts " ++
        safeF (kmh_to_mph data.gust_strength) " mph" ++ "\n" ++
      "☔ Rain: " ++ safeF (mm_to_in data.rain_1h) " in" ++ " (1h), " ++
        safeF (mm_to_in data.rain_24h) " in" ++ " (24h)" }

/-- The `merge_variables` dict as a key-value list, in the source's literal
order. -/
def MergeVars.toDict (m : MergeVars) : List (String × String) :=
  [("indoor_temp", m.indoor_temp),
   ("outdoor_temp", m.outdoor_temp),
   ("indoor_humidity", m.indoor_humidity),
   ("outdoor_humidity", m.outdoor_humidity),
   ("co2", m.co2),
   ("air_quality", m.air_quality),
   ("pressure", m.pressure),
   ("noise", m.noise),
   ("rain_1h", m.rain_1h),
   ("rain_24h", m.rain_24h),
   ("wind_speed", m.wind_speed),
   ("gust_speed", m.gust_speed),
   ("wind_angle", m.wind_angle),
   ("gust_angle", m.gust_angle),
   ("forecast_high", m.forecast_high),
   ("forecast_low", m.forecast_low),
   ("forecast_humidity", m.forecast_humidity),
   ("forecast_rain_in", m.forecast_rain_in),
   ("forecast_rain_chance", m.forecast_rain_chance),
   ("sunrise", m.sunrise),
   ("sunset", m.sunset),
   ("message", m.message)]

/-- A combined reading with every outdoor-module field (outdoor temperature
and humidity, rain sums, wind and gust speeds and angles) absent. -/
def clearOutdoor (d : CombinedData) : CombinedData :=
  { d with
    outdoor_temp_c := none
    outdoor_humidity := none
    rain_1h := none
    rain_24h := none
    wind_strength := none
    gust_strength := none
    wind_angle := none
    gust_angle := none }

/-- A combined reading with every indoor (base-unit) field absent. -/
def clearIndoor (d : CombinedData) : CombinedData :=
  { d with
    indoor_temp_c := none
    indoor_humidity := none
    co2 := none
    pressure := none
    noise := none }

/-- C5: for every numeric input, `c_to_f` is `round(c*9/5+32, 1)`, `mm_to_in`
is `round(mm*0.0393701, 2)` and `kmh_to_mph` is `round(kmh*0.621371, 1)`
(Python banker's rounding on the exact value); in particular
`c_to_f(0) = 32.0`, `mm_to_in(100) = 3.94` and `kmh_to_mph(10) = 6.2`. -/
theorem c5_conversion_formulas :
    (∀ v : PyNum, c_to_f (some v) = some (roundTo 1 (v.toQ * 9 / 5 + 32))) ∧
    (∀ v : PyNum, mm_to_in (some v) = some (roundTo 2 (v.toQ * (393701 / 10000000)))) ∧
    (∀ v : PyNum, kmh_to_mph (some v) = some (roundTo 1 (v.toQ * (621371 / 1000000)))) ∧
    c_to_f (some (.float 0)) = some 32 ∧
    mm_to_in (some (.float 100)) = some (197 / 50) ∧
    kmh_to_mph (some (.float 10)) = some (31 / 5) := by
  refine ⟨fun v => rfl, fun v => rfl, fun v => rfl, ?_, ?_, ?_⟩ <;>
    simp only [c_to_f, mm_to_in, kmh_to_mph, PyNum.toQ, Option.some.injEq] <;>
    norm_num [roundTo, roundHalfEven, Int.fdiv]

/-- C4 counterexample: `format_unix_time` has no `None` guard, so on the
absence value it raises `TypeError` instead of returning the absence value —
the claim's "each of the four conversion functions" fails for it. -/
theorem c4_counterexample : format_unix_time 0 none = .error .typeError := rfl

/-- C4 (amended): for the absence value, each of the three numeric conversion
functions (`c_to_f`, `mm_to_in`, `kmh_to_mph`) returns the absence value,
never substitutes zero and never throws; `format_unix_time`, which lacks a
`None` guard, instead raises `TypeError` on the absence value. -/
theorem c4_absence_propagation :
    c_to_f none = none ∧ mm_to_in none = none ∧ kmh_to_mph none = none ∧
    (∀ tz : ℤ, format_unix_time tz none = .error .typeError) :=
  ⟨rfl, rfl, rfl, fun _ => rfl⟩

/-- C7: in `get_forecast3` an absent daily `rain` field yields the inches
conversion of zero (`0.0`, not the missing-value sentinel), a present one
yields `mm_to_in` of the provider's mm value, and the rain chance is the
provider's 0-1 `pop` fraction (defaulting to 0 when absent) times 100,
banker's-rounded; `pop = 0.42` publishes as `"42%"` through the `safe`
formatter. -/
theorem c7_forecast_rain (tz : ℤ) (today : DailyForecast) :
    (today.rain = none →
      (get_forecast3 tz today).forecast_rain_in = mm_to_in (some (.int 0)) ∧
      (get_forecast3 tz today).forecast_rain_in = some 0) ∧
    (∀ v, today.rain = some v →
      (get_forecast3 tz today).forecast_rain_in = mm_to_in (some v)) ∧
    (∀ q, today.pop = some q →
      (get_forecast3 tz today).forecast_rain_chance = roundHalfEven (q.toQ * 100)) ∧
    (today.pop = none → (get_forecast3 tz today).forecast_rain_chance = 0) ∧
    (today.pop = some (.float (42 / 100)) →
      safeI (get_forecast3 tz today).forecast_rain_chance "%" = "42%") := by
  refine ⟨fun hr => ⟨?_, ?_⟩, fun v hv => ?_, fun q hq => ?_, fun hp => ?_, fun hp => ?_⟩
  · simp [get_forecast3, hr]
  · simp only [get_forecast3, hr, Option.getD_none, Option.some.injEq,
      mm_to_in, PyNum.toQ]
    norm_num [roundTo, roundHalfEven, Int.fdiv]
  · simp [get_forecast3, hv]
  · simp [get_forecast3, hq]
  · simp only [get_forecast3, hp, Option.getD_none, PyNum.toQ]
    norm_num [roundHalfEven, Int.fdiv]
  · simp only [get_forecast3, hp, Option.getD_some, PyNum.toQ]
    have h42 : roundHalfEven ((42 / 100 : ℚ) * 100) = 42 := by
      norm_num [roundHalfEven, Int.fdiv]
    rw [h42]
    rfl

/-- C7 witness: a concrete daily record with no `rain` field and `pop = 0.42`
published through `get_forecast3`. -/
theorem c7_forecast_rain_witness :
    (get_forecast3 0 ⟨75, 60, .int 50, none, some (.float (42 / 100)),
        1700000000, 1700040000⟩).forecast_rain_in = some 0 ∧
    safeI (get_forecast3 0 ⟨75, 60, .int 50, none, some (.float (42 / 100)),
        1700000000, 1700040000⟩).forecast_rain_chance "%" = "42%" :=
  ⟨((c7_forecast_rain 0 _).1 rfl).2, (c7_forecast_rain 0 _).2.2.2.2 rfl⟩

/-- Helper: the trace of `password_grant` is the incoming trace followed by
the password-path events, with at most a trailing `saved` event. -/
theorem password_grant_trace (env : AuthEnv) (file : Option JObj) (ev : List Event) :
    (password_grant env file ev).trace = ev ++ [.printedPassword, .passwordPost] ∨
    ∃ nt, (password_grant env file ev).trace =
      ev ++ [.printedPassword, .passwordPost, .saved nt] := by
  rcases h1 : raise_for_status env.passwordResp with e | u
  · left; simp [password_grant, h1]
  · rcases h2 : respJson env.passwordResp with e | nt
    · left; simp [password_grant, h1, h2]
    · rcases h3 : save_tokens env.saveOk nt with e | nf
      · left; simp [password_grant, h1, h2, h3]
      · rcases h4 : nt.lookup "access_token" with _ | v
        · exact .inr ⟨nt, by simp [password_grant, h1, h2, h3, h4]⟩
        · exact .inr ⟨nt, by simp [password_grant, h1, h2, h3, h4]⟩

/-- Helper: the refresh post never appears in a `password_grant` trace that
starts from a refresh-free prefix. -/
theorem refreshPost_not_mem_password_grant (env : AuthEnv) (file : Option JObj)
    (ev : List Event) (hev : Event.refreshPost ∉ ev) :
    Event.refreshPost ∉ (password_grant env file ev).trace := by
  rcases password_grant_trace env file ev with h | ⟨nt, h⟩ <;> rw [h] <;> simp [hev]

/-- Helper: the password post always appears in a `password_grant` trace. -/
theorem passwordPost_mem_password_grant (env : AuthEnv) (file : Option JObj)
    (ev : List Event) :
    Event.passwordPost ∈ (password_grant env file ev).trace := by
  rcases password_grant_trace env file ev with h | ⟨nt, h⟩ <;> rw [h] <;> simp

/-- C1: with a stored `refresh_token` and a refresh grant failing at the HTTP
level (status in `[400, 600)`), the `HTTPError` is caught and never
re-raised: the password grant runs, and on its success the returned value is
the password response's `access_token` and the persisted record is the full
password response. -/
theorem c1_refresh_failure_falls_back (t pt : JObj) (rv tokv : PyVal)
    (rst pst : ℕ) (rbody : Option JObj)
    (hrt : t.lookup "refresh_token" = some rv)
    (h4 : 400 ≤ rst) (h6 : rst < 600) (hps : pst < 400)
    (hptok : pt.lookup "access_token" = some tokv) :
    (get_access_token ⟨some t, ⟨rst, rbody⟩, ⟨pst, some pt⟩, true⟩).result = .ok tokv ∧
    (get_access_token ⟨some t, ⟨rst, rbody⟩, ⟨pst, some pt⟩, true⟩).file = some pt ∧
    Event.passwordPost ∈ (get_access_token ⟨some t, ⟨rst, rbody⟩, ⟨pst, some pt⟩, true⟩).trace := by
  have hr : raise_for_status ⟨rst, rbody⟩ = .error .httpError := by
    simp [raise_for_status, h4, h6]
  have hp : raise_for_status ⟨pst, some pt⟩ = .ok () := by
    have : ¬ (400 ≤ pst ∧ pst < 600) := by omega
    simp [raise_for_status, this]
  simp [get_access_token, load_tokens, hrt, hr, password_grant, hp, respJson,
    save_tokens, hptok]

/-- C1 witness: concrete stored record, a `401` refresh response and a `200`
password response carrying a fresh token pair. -/
theorem c1_refresh_failure_falls_back_witness :
    (get_access_token ⟨some [("refresh_token", .str "oldr")], ⟨401, some []⟩,
        ⟨200, some [("access_token", .str "pwtok"), ("refresh_token", .str "pwr")]⟩,
        true⟩).result = .ok (.str "pwtok") ∧
    (get_access_token ⟨some [("refresh_token", .str "oldr")], ⟨401, some []⟩,
        ⟨200, some [("access_token", .str "pwtok"), ("refresh_token", .str "pwr")]⟩,
        true⟩).file = some [("access_token", .str "pwtok"), ("refresh_token", .str "pwr")] ∧
    Event.passwordPost ∈ (get_access_token ⟨some [("refresh_token", .str "oldr")],
        ⟨401, some []⟩,
        ⟨200, some [("access_token", .str "pwtok"), ("refresh_token", .str "pwr")]⟩,
        true⟩).trace :=
  c1_refresh_failure_falls_back [("refresh_token", .str "oldr")]
    [("access_token", .str "pwtok"), ("refresh_token", .str "pwr")]
    (.str "oldr") (.str "pwtok") 401 200 (some [])
    (by decide) (by decide) (by decide) (by decide) (by decide)

/-- C2: with a stored `refresh_token` and a refresh grant that succeeds, the
password grant is never invoked: the full refresh response is persisted, its
`access_token` is returned, and exactly one token-acquisition post happens. -/
theorem c2_refresh_success_single_path (t nt : JObj) (rv tokv : PyVal)
    (rst : ℕ) (pResp : HttpResp)
    (hrt : t.lookup "refresh_token" = some rv)
    (hst : rst < 400)
    (htok : nt.lookup "access_token" = some tokv) :
    (get_access_token ⟨some t, ⟨rst, some nt⟩, pResp, true⟩).result = .ok tokv ∧
    (get_access_token ⟨some t, ⟨rst, some nt⟩, pResp, true⟩).file = some nt ∧
    (get_access_token ⟨some t, ⟨rst, some nt⟩, pResp, true⟩).trace =
      [.printedRefresh, .refreshPost, .saved nt] ∧
    Event.passwordPost ∉ (get_access_token ⟨some t, ⟨rst, some nt⟩, pResp, true⟩).trace ∧
    (get_access_token ⟨some t, ⟨rst, some nt⟩, pResp, true⟩).trace.count .refreshPost +
      (get_access_token ⟨some t, ⟨rst, some nt⟩, pResp, true⟩).trace.count .passwordPost
      = 1 := by
  have hr : raise_for_status ⟨rst, some nt⟩ = .ok () := by
    have : ¬ (400 ≤ rst ∧ rst < 600) := by omega
    simp [raise_for_status, this]
  simp [get_access_token, load_tokens, hrt, hr, respJson, save_tokens, htok,
    List.count_cons, List.count_nil]

/-- C2 witness: concrete stored record and a `200` refresh response carrying
a fresh token pair. -/
theorem c2_refresh_success_single_path_witness :
    (get_access_token ⟨some [("refresh_token", .str "oldr")],
        ⟨200, some [("access_token", .str "newa"), ("refresh_token", .str "newr")]⟩,
        ⟨200, some []⟩, true⟩).result = .ok (.str "newa") ∧
    (get_access_token ⟨some [("refresh_token", .str "oldr")],
        ⟨200, some [("access_token", .str "newa"), ("refresh_token", .str "newr")]⟩,
        ⟨200, some []⟩, true⟩).file =
      some [("access_token", .str "newa"), ("refresh_token", .str "newr")] ∧
    (get_access_token ⟨some [("refresh_token", .str "oldr")],
        ⟨200, some [("access_token", .str "newa"), ("refresh_token", .str "newr")]⟩,
        ⟨200, some []⟩, true⟩).trace =
      [.printedRefresh, .refreshPost,
       .saved [("access_token", .str "newa"), ("refresh_token", .str "newr")]] ∧
    Event.passwordPost ∉ (get_access_token ⟨some [("refresh_token", .str "oldr")],
        ⟨200, some [("access_token", .str "newa"), ("refresh_token", .str "newr")]⟩,
        ⟨200, some []⟩, true⟩).trace ∧
    (get_access_token ⟨some [("refresh_token", .str "oldr")],
        ⟨200, some [("access_token", .str "newa"), ("refresh_token", .str "newr")]⟩,
        ⟨200, some []⟩, true⟩).trace.count .refreshPost +
      (get_access_token ⟨some [("refresh_token", .str "oldr")],
        ⟨200, some [("access_token", .str "newa"), ("refresh_token", .str "newr")]⟩,
        ⟨200, some []⟩, true⟩).trace.count .passwordPost = 1 :=
  c2_refresh_success_single_path [("refresh_token", .str "oldr")]
    [("access_token", .str "newa"), ("refresh_token", .str "newr")]
    (.str "oldr") (.str "newa") 200 ⟨200, some []⟩
    (by decide) (by decide) (by decide)

/-- C3: when no credential file exists `load_tokens` returns the empty record
without failing, and `get_access_token` skips the refresh attempt entirely
and goes directly to the password grant; likewise when the loaded record has
no `refresh_token` field. -/
theorem c3_no_refresh_token_skips_refresh (rr pr : HttpResp) (so : Bool)
    (t : JObj) (hno : t.lookup "refresh_token" = none) :
    load_tokens none = ([] : JObj) ∧
    get_access_token ⟨none, rr, pr, so⟩ = password_grant ⟨none, rr, pr, so⟩ none [] ∧
    Event.refreshPost ∉ (get_access_token ⟨none, rr, pr, so⟩).trace ∧
    get_access_token ⟨some t, rr, pr, so⟩ = password_grant ⟨some t, rr, pr, so⟩ (some t) [] ∧
    Event.refreshPost ∉ (get_access_token ⟨some t, rr, pr, so⟩).trace := by
  have h1 : get_access_token ⟨none, rr, pr, so⟩ = password_grant ⟨none, rr, pr, so⟩ none [] := by
    simp [get_access_token, load_tokens]
  have h2 : get_access_token ⟨some t, rr, pr, so⟩ =
      password_grant ⟨some t, rr, pr, so⟩ (some t) [] := by
    simp [get_access_token, load_tokens, hno]
  refine ⟨rfl, h1, ?_, h2, ?_⟩
  · rw [h1]; exact refreshPost_not_mem_password_grant _ _ _ (by simp)
  · rw [h2]; exact refreshPost_not_mem_password_grant _ _ _ (by simp)

/-- C3 witness: an absent file and a stored record without `refresh_token`,
against a succeeding password endpoint. -/
theorem c3_no_refresh_token_skips_refresh_witness :
    load_tokens none = ([] : JObj) ∧
    get_access_token ⟨none, ⟨200, some []⟩, ⟨200, some [("access_token", .str "a")]⟩, true⟩ =
      password_grant ⟨none, ⟨200, some []⟩, ⟨200, some [("access_token", .str "a")]⟩, true⟩
        none [] ∧
    Event.refreshPost ∉ (get_access_token ⟨none, ⟨200, some []⟩,
        ⟨200, some [("access_token", .str "a")]⟩, true⟩).trace ∧
    get_access_token ⟨some [("access_token", .str "stale")], ⟨200, some []⟩,
        ⟨200, some [("access_token", .str "a")]⟩, true⟩ =
      password_grant ⟨some [("access_token", .str "stale")], ⟨200, some []⟩,
        ⟨200, some [("access_token", .str "a")]⟩, true⟩
        (some [("access_token", .str "stale")]) [] ∧
    Event.refreshPost ∉ (get_access_token ⟨some [("access_token", .str "stale")],
        ⟨200, some []⟩, ⟨200, some [("access_token", .str "a")]⟩, true⟩).trace :=
  c3_no_refresh_token_skips_refresh _ _ _ _ (by decide)

/-- C10: in the refresh path, only an HTTP-status error falls back to the
password grant. A refresh response that is HTTP-successful but unparsable
raises `ValueError`, a failing token-file write raises `OSError`, and a
parsed body without `access_token` raises `KeyError` — each propagates out
with no password post; conversely any status in `[400, 600)` does fall back. -/
theorem c10_only_http_error_falls_back (t nt : JObj) (rv : PyVal)
    (rst : ℕ) (pResp : HttpResp) (so : Bool)
    (hrt : t.lookup "refresh_token" = some rv)
    (hst : rst < 400) :
    ((get_access_token ⟨some t, ⟨rst, none⟩, pResp, so⟩).result = .error .valueError ∧
      Event.passwordPost ∉ (get_access_token ⟨some t, ⟨rst, none⟩, pResp, so⟩).trace) ∧
    ((get_access_token ⟨some t, ⟨rst, some nt⟩, pResp, false⟩).result = .error .ioError ∧
      Event.passwordPost ∉ (get_access_token ⟨some t, ⟨rst, some nt⟩, pResp, false⟩).trace) ∧
    (nt.lookup "access_token" = none →
      (get_access_token ⟨some t, ⟨rst, some nt⟩, pResp, true⟩).result = .error .keyError ∧
      Event.passwordPost ∉ (get_access_token ⟨some t, ⟨rst, some nt⟩, pResp, true⟩).trace) ∧
    (∀ (rst2 : ℕ) (rbody2 : Option JObj), 400 ≤ rst2 → rst2 < 600 →
      Event.passwordPost ∈
        (get_access_token ⟨some t, ⟨rst2, rbody2⟩, pResp, so⟩).trace) := by
  have hok : ∀ rbody : Option JObj, raise_for_status ⟨rst, rbody⟩ = .ok () := by
    intro rbody
    have : ¬ (400 ≤ rst ∧ rst < 600) := by omega
    simp [raise_for_status, this]
  refine ⟨?_, ?_, fun hmiss => ?_, fun rst2 rbody2 h4 h6 => ?_⟩
  · constructor <;> simp [get_access_token, load_tokens, hrt, hok, respJson]
  · constructor <;> simp [get_access_token, load_tokens, hrt, hok, respJson, save_tokens]
  · constructor <;>
      simp [get_access_token, load_tokens, hrt, hok, respJson, save_tokens, hmiss]
  · have hr : raise_for_status ⟨rst2, rbody2⟩ = .error .httpError := by
      simp [raise_for_status, h4, h6]
    simp only [get_access_token, load_tokens, hrt, hr]
    exact passwordPost_mem_password_grant _ _ _

/-- C10 witness: a `200` refresh status paired with, in turn, an unparsable
body, a failing file write, and a body without `access_token`; and a `401`
status that does fall back. -/
theorem c10_only_http_error_falls_back_witness :
    ((get_access_token ⟨some [("refresh_token", .str "r")], ⟨200, none⟩,
        ⟨200, some []⟩, true⟩).result = .error .valueError ∧
      Event.passwordPost ∉ (get_access_token ⟨some [("refresh_token", .str "r")],
        ⟨200, none⟩, ⟨200, some []⟩, true⟩).trace) ∧
    ((get_access_token ⟨some [("refresh_token", .str "r")],
        ⟨200, some [("expires_in", .num (.int 3600))]⟩,
        ⟨200, some []⟩, false⟩).result = .error .ioError ∧
      Event.passwordPost ∉ (get_access_token ⟨some [("refresh_token", .str "r")],
        ⟨200, some [("expires_in", .num (.int 3600))]⟩,
        ⟨200, some []⟩, false⟩).trace) ∧
    ((get_access_token ⟨some [("refresh_token", .str "r")],
        ⟨200, some [("expires_in", .num (.int 3600))]⟩,
        ⟨200, some []⟩, true⟩).result = .error .keyError ∧
      Event.passwordPost ∉ (get_access_token ⟨some [("refresh_token", .str "r")],
        ⟨200, some [("expires_in", .num (.int 3600))]⟩,
        ⟨200, some []⟩, true⟩).trace) ∧
    Event.passwordPost ∈ (get_access_token ⟨some [("refresh_token", .str "r")],
        ⟨401, some []⟩, ⟨200, some []⟩, true⟩).trace := by
  obtain ⟨h1, h2, h3, h4⟩ :=
    c10_only_http_error_falls_back [("refresh_token", .str "r")]
      [("expires_in", .num (.int 3600))] (.str "r") 200 ⟨200, some []⟩ true
      (by decide) (by decide)
  exact ⟨h1, ⟨(c10_only_http_error_falls_back [("refresh_token", .str "r")]
      [("expires_in", .num (.int 3600))] (.str "r") 200 ⟨200, some []⟩ false
      (by decide) (by decide)).2.1.1,
    (c10_only_http_error_falls_back [("refresh_token", .str "r")]
      [("expires_in", .num (.int 3600))] (.str "r") 200 ⟨200, some []⟩ false
      (by decide) (by decide)).2.1.2⟩,
    h3 (by decide), h4 401 (some []) (by decide) (by decide)⟩

/-- C6 counterexample: on a concrete station response the extracted reading
has thirteen numeric-or-absent fields, not the eleven the claim states. -/
theorem c6_counterexample :
    (get_weather_data [⟨[("Temperature", .float 21)], []⟩]).map
        (fun r => r.toDict.length) = .ok 13 ∧ (13 : ℕ) ≠ 11 :=
  ⟨rfl, by decide⟩

/-- C6 (amended): `get_weather_data` selects the first device record, locates
at most one module per recognized type tag — the first `NAModule1` (outdoor),
`NAModule2` (wind), `NAModule3` (rain), each optional and yielding absence
for its fields when not present — and extracts THIRTEEN numeric-or-absent
fields with distinct names. -/
theorem c6_station_extraction (base : Device) (rest : List Device) :
    get_weather_data (base :: rest) = get_weather_data [base] ∧
    ∃ r, get_weather_data (base :: rest) = .ok r ∧
      r.toDict.length = 13 ∧
      (r.toDict.map Prod.fst).Nodup ∧
      r.outdoor_temp_c = (base.modules.find? (fun m => m.type == "NAModule1")).bind
        (fun m => m.dashboard_data.lookup "Temperature") ∧
      ((∀ m ∈ base.modules, m.type ≠ "NAModule1") →
        r.outdoor_temp_c = none ∧ r.outdoor_humidity = none) ∧
      ((∀ m ∈ base.modules, m.type ≠ "NAModule2") →
        r.wind_strength = none ∧ r.gust_strength = none ∧
        r.wind_angle = none ∧ r.gust_angle = none) ∧
      ((∀ m ∈ base.modules, m.type ≠ "NAModule3") →
        r.rain_1h = none ∧ r.rain_24h = none) := by
  have hfind : ∀ tag : String, (∀ m ∈ base.modules, m.type ≠ tag) →
      base.modules.find? (fun m => m.type == tag) = none := by
    intro tag h
    apply List.find?_eq_none.mpr
    intro m hm
    simp [h m hm]
  refine ⟨rfl, _, rfl, rfl, ?_, rfl, fun h => ?_, fun h => ?_, fun h => ?_⟩
  · simp [StationReading.toDict]
  · constructor <;> simp [get_weather_data, hfind _ h]
  · refine ⟨?_, ?_, ?_, ?_⟩ <;> simp [get_weather_data, hfind _ h]
  · constructor <;> simp [get_weather_data, hfind _ h]

/-- C6 witness: a base station with one outdoor module and no wind or rain
module, plus a second device that is ignored. -/
theorem c6_station_extraction_witness :
    get_weather_data
        [⟨[("Temperature", .float 21)],
          [⟨"NAModule1", [("Temperature", .float 5)]⟩]⟩,
         ⟨[("Temperature", .float 99)], []⟩] =
      get_weather_data [⟨[("Temperature", .float 21)],
        [⟨"NAModule1", [("Temperature", .float 5)]⟩]⟩] ∧
    ∃ r, get_weather_data
        [⟨[("Temperature", .float 21)],
          [⟨"NAModule1", [("Temperature", .float 5)]⟩]⟩,
         ⟨[("Temperature", .float 99)], []⟩] = .ok r ∧
      r.toDict.length = 13 ∧
      r.outdoor_temp_c = some (.float 5) ∧
      r.wind_strength = none ∧ r.rain_1h = none := by
  obtain ⟨h1, r, hok, hlen, _, hout, _, hw, hr⟩ :=
    c6_station_extraction
      ⟨[("Temperature", .float 21)], [⟨"NAModule1", [("Temperature", .float 5)]⟩]⟩
      [⟨[("Temperature", .float 99)], []⟩]
  refine ⟨h1, r, hok, hlen, ?_, ?_, ?_⟩
  · rw [hout]; rfl
  · exact (hw (by decide)).1
  · exact (hr (by decide)).1

/-- C8: every optional field of the combined reading maps independently to
either its formatted string or the sentinel `—`: blanking every outdoor field
turns exactly the outdoor payload fields into `—` while the indoor payload
fields still render their formatted values, and blanking the indoor fields
leaves every outdoor payload field unchanged. -/
theorem c8_field_independence (d : CombinedData) :
    ((push_merge_variables (clearOutdoor d)).outdoor_temp = "—" ∧
     (push_merge_variables (clearOutdoor d)).outdoor_humidity = "—" ∧
     (push_merge_variables (clearOutdoor d)).rain_1h = "—" ∧
     (push_merge_variables (clearOutdoor d)).rain_24h = "—" ∧
     (push_merge_variables (clearOutdoor d)).wind_speed = "—" ∧
     (push_merge_variables (clearOutdoor d)).gust_speed = "—" ∧
     (push_merge_variables (clearOutdoor d)).wind_angle = "—" ∧
     (push_merge_variables (clearOutdoor d)).gust_angle = "—") ∧
    ((push_merge_variables (clearOutdoor d)).indoor_temp =
        safeF (c_to_f d.indoor_temp_c) "°F" ∧
     (push_merge_variables (clearOutdoor d)).indoor_humidity =
        safeN d.indoor_humidity "%" ∧
     (push_merge_variables (clearOutdoor d)).co2 = safeN d.co2 " ppm" ∧
     (push_merge_variables (clearOutdoor d)).air_quality =
        get_air_quality_status d.co2 ∧
     (push_merge_variables (clearOutdoor d)).pressure = safeN d.pressure " mbar" ∧
     (push_merge_variables (clearOutdoor d)).noise = safeN d.noise " dB") ∧
    ((push_merge_variables (clearIndoor d)).outdoor_temp =
        (push_merge_variables d).outdoor_temp ∧
     (push_merge_variables (clearIndoor d)).outdoor_humidity =
        (push_merge_variables d).outdoor_humidity ∧
     (push_merge_variables (clearIndoor d)).rain_1h =
        (push_merge_variables d).rain_1h ∧
     (push_merge_variables (clearIndoor d)).rain_24h =
        (push_merge_variables d).rain_24h ∧
     (push_merge_variables (clearIndoor d)).wind_speed =
        (push_merge_variables d).wind_speed ∧
     (push_merge_variables (clearIndoor d)).gust_speed =
        (push_merge_variables d).gust_speed ∧
     (push_merge_variables (clearIndoor d)).wind_angle =
        (push_merge_variables d).wind_angle ∧
     (push_merge_variables (clearIndoor d)).gust_angle =
        (push_merge_variables d).gust_angle) ∧
    ((push_merge_variables (clearOutdoor d)).indoor_temp =
        (push_merge_variables d).indoor_temp ∧
     (push_merge_variables (clearOutdoor d)).indoor_humidity =
        (push_merge_variables d).indoor_humidity ∧
     (push_merge_variables (clearOutdoor d)).co2 =
        (push_merge_variables d).co2 ∧
     (push_merge_variables (clearOutdoor d)).pressure =
        (push_merge_variables d).pressure ∧
     (push_merge_variables (clearOutdoor d)).noise =
        (push_merge_variables d).noise ∧
     (push_merge_variables (clearOutdoor d)).forecast_high =
        (push_merge_variables d).forecast_high) :=
  ⟨⟨rfl, rfl, rfl, rfl, rfl, rfl, rfl, rfl⟩,
   ⟨rfl, rfl, rfl, rfl, rfl, rfl⟩,
   ⟨rfl, rfl, rfl, rfl, rfl, rfl, rfl, rfl⟩,
   ⟨rfl, rfl, rfl, rfl, rfl, rfl⟩⟩

/-- C9: the thirteen station-reading keys and the seven forecast-reading keys
are disjoint, so the `{**netatmo, **forecast}` merge keeps every station
entry unchanged and appends every forecast entry; the resulting
`merge_variables` object of the webhook body has exactly twenty-two fields
(string-valued by construction: every `MergeVars` field is a `String`), with
distinct names. -/
theorem c9_merge_disjoint_22 (s : StationReading) (f : ForecastReading) :
    (∀ k, k ∈ dictKeys s.toDict → k ∉ dictKeys f.toDict) ∧
    dictMerge s.toDict f.toDict = s.toDict ++ f.toDict ∧
    (push_merge_variables (combineReadings s f)).toDict.length = 22 ∧
    ((push_merge_variables (combineReadings s f)).toDict.map Prod.fst).Nodup := by
  have hs : dictKeys s.toDict =
      ["indoor_temp_c", "indoor_humidity", "co2", "pressure", "noise",
       "outdoor_temp_c", "outdoor_humidity", "rain_1h", "rain_24h",
       "wind_strength", "gust_strength", "wind_angle", "gust_angle"] := by
    simp [dictKeys, StationReading.toDict]
  have hf : dictKeys f.toDict =
      ["forecast_high", "forecast_low", "forecast_humidity", "forecast_rain_in",
       "forecast_rain_chance", "sunrise", "sunset"] := by
    simp [dictKeys, ForecastReading.toDict]
  refine ⟨?_, ?_, rfl, ?_⟩
  · rw [hs, hf]; decide
  · simp [dictMerge, dictKeys, StationReading.toDict, ForecastReading.toDict,
      List.lookup]
  · simp [MergeVars.toDict]

end NetatmoTrmnl
